import Mathlib

/-!
Verification of the whooshy text-analysis pipeline (`whooshy/core.py`,
`whooshy/analysis/{tokenizers,filters,analyzers,morph}.py`).

The embedding is shallow and value-level: a token stream is the list of
snapshots of the single mutable `Token` record at each `yield`, which is
exactly what a well-behaved consumer (one that never retains the record
across pull steps) observes.  Texts are `List Char`; Python string slicing
`value[a:b]` becomes `(value.drop a).take (b - a)`, which has the same
clamping behaviour.  The external regular-expression engine is represented
by its documented contract: a compiled pattern provides an ordered list of
non-overlapping `(start, stop)` match spans, and the token text is the
matched slice (group 0).
-/

/-- Mirror of `Token.__init__` (core.py:103-127).  The four constructor
parameters become the first four fields; the remaining fields take the
initializer's default values.  `boost` is the float `1.0` in the source and
is only ever reassigned the same constant `1.0`, so it is carried as a
`Nat`. -/
structure Token where
  positions : Bool
  chars : Bool
  remove_stopwords : Bool
  mode : List Char
  boost : Nat
  stopped : Bool
  text : List Char
  original_text : List Char
  pos : Nat
  start_char : Nat
  end_char : Nat
deriving Repr, DecidableEq

/-- Keyword options recognized by the tokenizer `__call__` methods
(tokenizers.py:65-67, 128-130, 249-251), with the defaults used there. -/
structure CallOpts where
  positions : Bool
  chars : Bool
  keep_original : Bool
  remove_stopwords : Bool
  start_pos : Nat
  start_char : Nat
  tokenize : Bool
  mode : List Char
deriving Repr, DecidableEq

/-- The default keyword options of every tokenizer `__call__`. -/
def defaultOpts : CallOpts :=
  { positions := false, chars := false, keep_original := false,
    remove_stopwords := true, start_pos := 0, start_char := 0,
    tokenize := true, mode := [] }

/-- The `Token` built at the start of each tokenizer call:
`Token(positions, chars, remove_stopwords=remove_stopwords, mode=mode)`,
all other attributes at their `Token.__init__` defaults. -/
def baseToken (o : CallOpts) : Token :=
  { positions := o.positions, chars := o.chars,
    remove_stopwords := o.remove_stopwords, mode := o.mode,
    boost := 1, stopped := false, text := [], original_text := [],
    pos := 0, start_char := 0, end_char := 0 }

/-- Python slice `value[a:b]` on a character list. -/
def pySlice (value : List Char) (a b : Nat) : List Char :=
  (value.drop a).take (b - a)

/-- Configuration of `StopFilter.__init__` (filters.py:171-202): the
resolved stop set (modelled as a list), `minsize`, `maxsize` and
`renumber`. -/
structure StopCfg where
  stops : List (List Char)
  min : Nat
  max : Option Nat
  renumber : Bool
deriving Repr, DecidableEq

/-- `StopFilter.__call__` (filters.py:211-237).  The extra `Option Nat`
argument is the local variable `pos` of the loop (initially `None`). -/
def stopRun (cfg : StopCfg) : Option Nat → List Token → List Token
  | _, [] => []
  | posAcc, t :: rest =>
    if cfg.min ≤ t.text.length
        && (match cfg.max with
            | none => true
            | some m => t.text.length ≤ m)
        && !(cfg.stops.contains t.text) then
      -- not a stop word
      if cfg.renumber && t.positions then
        match posAcc with
        | none =>
          { t with stopped := false } :: stopRun cfg (some t.pos) rest
        | some p =>
          { t with pos := p + 1, stopped := false } ::
            stopRun cfg (some (p + 1)) rest
      else
        { t with stopped := false } :: stopRun cfg posAcc rest
    else
      -- a stop word
      if !t.remove_stopwords then
        { t with stopped := true } :: stopRun cfg posAcc rest
      else
        stopRun cfg posAcc rest

/-- Entry point of `StopFilter.__call__`: the loop starts with
`pos = None`. -/
def stopApply (cfg : StopCfg) (stream : List Token) : List Token :=
  stopRun cfg none stream

/-- `str.translate` through an association table, as used by
`CharsetFilter.__call__` (filters.py:284-290): a bound code point is
replaced by its (possibly empty) binding, an unbound one passes through. -/
def translateChar (table : List (Char × List Char)) (c : Char) : List Char :=
  match table.find? (fun p => p.1 == c) with
  | some p => p.2
  | none => [c]

/-- Stemming table lookup.  Modelled from the spec: the stemming provider
(`get_stemmer_by_lang`, NLTK) is an external collaborator with contract
`stem(word) -> word`; it is represented by a finite table, words outside
the table stemming to themselves. -/
def stemWord (table : List (List Char × List Char)) (w : List Char) :
    List Char :=
  match table.find? (fun p => p.1 == w) with
  | some p => p.2
  | none => w

/-- The non-dispatching filter variants.  `stop` is `StopFilter`,
`charsetF` is `CharsetFilter`, `stem` is `StemFilter` (with the external
stemmer as a table, see `stemWord`). -/
inductive BasicFilter where
  | pass
  | lowercase
  | strip
  | stop (cfg : StopCfg)
  | charsetF (table : List (Char × List Char))
  | stem (table : List (List Char × List Char)) (ignore : List (List Char))
deriving Repr

/-- `str.strip()`: drop whitespace from both ends. -/
def pyStrip (s : List Char) : List Char :=
  ((s.dropWhile Char.isWhitespace).reverse.dropWhile Char.isWhitespace).reverse

/-- Applying one non-dispatching filter to a stream:
`PassFilter.__call__` (filters.py:73-74), `LowercaseFilter.__call__`
(filters.py:138-141), `StripFilter.__call__` (filters.py:148-151),
`StopFilter.__call__` (filters.py:211-237), `CharsetFilter.__call__`
(filters.py:284-290) and `StemFilter.__call__` (morph.py:71-80). -/
def applyBasic : BasicFilter → List Token → List Token
  | .pass, s => s
  | .lowercase, s => s.map (fun t => { t with text := t.text.map Char.toLower })
  | .strip, s => s.map (fun t => { t with text := pyStrip t.text })
  | .stop cfg, s => stopApply cfg s
  | .charsetF table, s =>
      s.map (fun t => { t with text := t.text.flatMap (translateChar table) })
  | .stem table ignore, s =>
      s.map (fun t =>
        if !t.stopped && !(ignore.contains t.text) then
          { t with text := stemWord table t.text }
        else t)

/-- `StemFilter.is_morph = True` (morph.py:59); every other filter keeps
`Composable.is_morph = False` (core.py:168). -/
def basicIsMorph : BasicFilter → Bool
  | .stem _ _ => true
  | _ => false

/-- A filter stage: either a non-dispatching filter or a `MultiFilter`
whose keyword mapping associates mode strings with sub-filters
(filters.py:107-114). -/
inductive FiltStage where
  | basic (f : BasicFilter)
  | multi (filters : List (List Char × BasicFilter))
deriving Repr

/-- `self.filters.get(mode, self.default_filter)` where the default filter
is a `PassFilter` (filters.py:105, 124). -/
def lookupFilter (filters : List (List Char × BasicFilter))
    (mode : List Char) : BasicFilter :=
  match filters.find? (fun p => p.1 == mode) with
  | some p => p.2
  | none => .pass

/-- Errors observable while running a pipeline: `StopIteration` escaping
`next()` on an exhausted stream, or applying a stage to an argument of the
wrong shape. -/
inductive RunErr where
  | stopIteration
  | invalid
deriving Repr, DecidableEq

/-- `next(tokens)` with no default (filters.py:123): `StopIteration` on an
empty stream. -/
def pyNext (s : List Token) : Except RunErr (Token × List Token) :=
  match s with
  | [] => .error .stopIteration
  | t :: rest => .ok (t, rest)

/-- `MultiFilter.__call__` (filters.py:121-126): pull the first token,
select the sub-filter by its `mode` (default pass-through), and apply it to
`chain([t], tokens)` — the consumed token prepended back onto the rest. -/
def multiApply (filters : List (List Char × BasicFilter))
    (tokens : List Token) : Except RunErr (List Token) :=
  match pyNext tokens with
  | .error e => .error e
  | .ok (t, rest) =>
      .ok (applyBasic (lookupFilter filters t.mode) ([t] ++ rest))

/-- Applying a filter stage to a token stream. -/
def applyFilt : FiltStage → List Token → Except RunErr (List Token)
  | .basic f, s => .ok (applyBasic f s)
  | .multi filters, s => multiApply filters s

/-- `IDTokenizer.__call__` (tokenizers.py:65-97): the whole input becomes a
single token (yielded unconditionally, even for empty input).  Note the
source sets `t.pos = start_pos + 1`. -/
def idTokenize (o : CallOpts) (value : List Char) : List Token :=
  let t := baseToken o
  let t := { t with text := value, boost := 1 }
  let t := if o.keep_original then { t with original_text := value } else t
  let t := if o.positions then { t with pos := o.start_pos + 1 } else t
  let t := if o.chars then
      { t with start_char := o.start_char,
               end_char := o.start_char + value.length }
    else t
  [t]

/-- The `gaps=False` loop of `RegexTokenizer.__call__`
(tokenizers.py:156-169), threading the single mutable token through the
enumerated match spans.  The source assigns `t.start_char` twice — first
`start_char + match.start()`, then `start_char + match.end()` — and never
assigns `t.end_char` (tokenizers.py:167-168); this is kept verbatim. -/
def regexMatchRun (o : CallOpts) (value : List Char) :
    Token → Nat → List (Nat × Nat) → List Token
  | _, _, [] => []
  | t, pos, (ms, me) :: rest =>
    let t := { t with text := pySlice value ms me, boost := 1 }
    let t := if o.keep_original then { t with original_text := t.text } else t
    let t := { t with stopped := false }
    let t := if o.positions then { t with pos := o.start_pos + pos } else t
    let t := if o.chars then { t with start_char := o.start_char + ms } else t
    let t := if o.chars then { t with start_char := o.start_char + me } else t
    t :: regexMatchRun o value t (pos + 1) rest

/-- The `gaps=True` loop of `RegexTokenizer.__call__`
(tokenizers.py:170-209): text between match spans becomes tokens, and a
trailing non-empty remainder is emitted last (with `start_char`/`end_char`
taken without the `start_char` offset, as in the source). -/
def regexGapRun (o : CallOpts) (value : List Char) :
    Token → Nat → Nat → List (Nat × Nat) → List Token
  | t, prevend, pos, [] =>
    if prevend < value.length then
      let t := { t with text := value.drop prevend, boost := 1 }
      let t := if o.keep_original then { t with original_text := t.text } else t
      let t := { t with stopped := false }
      let t := if o.positions then { t with pos := pos } else t
      let t := if o.chars then
          { t with start_char := prevend, end_char := value.length }
        else t
      [t]
    else []
  | t, prevend, pos, (ms, me) :: rest =>
    let txt := pySlice value prevend ms
    if txt.isEmpty then
      regexGapRun o value t me pos rest
    else
      let t := { t with text := txt, boost := 1 }
      let t := if o.keep_original then { t with original_text := t.text } else t
      let t := { t with stopped := false }
      let tp := if o.positions then ({ t with pos := pos }, pos + 1)
                else (t, pos)
      let t := tp.1
      let t := if o.chars then
          { t with start_char := o.start_char + prevend,
                   end_char := o.start_char + ms }
        else t
      t :: regexGapRun o value t me tp.2 rest

/-- `RegexTokenizer.__call__` (tokenizers.py:128-209), with the compiled
expression's behaviour on `value` supplied as the list of its
non-overlapping match spans.  With `tokenize=False` the whole input is one
token; otherwise the `gaps` flag selects the branch. -/
def regexTokenize (spans : List (Nat × Nat)) (gaps : Bool)
    (o : CallOpts) (value : List Char) : List Token :=
  let t := baseToken o
  if !o.tokenize then
    let t := { t with original_text := value, text := value, boost := 1 }
    let t := if o.positions then { t with pos := o.start_pos } else t
    let t := if o.chars then
        { t with start_char := o.start_char,
                 end_char := o.start_char + value.length }
      else t
    [t]
  else if !gaps then
    regexMatchRun o value t 0 spans
  else
    regexGapRun o value t 0 o.start_pos spans

/-- The character loop of `CharsetTokenizer.__call__`
(tokenizers.py:277-314), threading the mutable token, the accumulated
translated text, the position counter and the `start`/`current` offsets.
A character whose translation is empty is a break.  Mid-stream tokens take
the accumulated translated `text`; the trailing token takes the slice
`value[start:current]` of the original input, exactly as in the source. -/
def charsetRun (charMap : Char → List Char) (o : CallOpts)
    (value : List Char) :
    Token → List Char → Nat → Nat → Nat → List Char → List Token
  | t, _, pos, start, current, [] =>
    if start < current then
      let t := { t with text := pySlice value start current, boost := 1 }
      let t := if o.keep_original then { t with original_text := t.text }
        else t
      let t := if o.positions then { t with pos := pos } else t
      let t := if o.chars then
          { t with start_char := start, end_char := current }
        else t
      [t]
    else []
  | t, text, pos, start, current, c :: cs =>
    let tchar := charMap c
    if !tchar.isEmpty then
      charsetRun charMap o value t (text ++ tchar) pos start (current + 1) cs
    else
      if start < current then
        let t := { t with text := text, boost := 1 }
        let t := if o.keep_original then { t with original_text := t.text }
          else t
        let tp := if o.positions then ({ t with pos := pos }, pos + 1)
                  else (t, pos)
        let t := tp.1
        let t := if o.chars then
            { t with start_char := start, end_char := current }
          else t
        t :: charsetRun charMap o value t [] tp.2 (current + 1) (current + 1) cs
      else
        charsetRun charMap o value t [] pos (current + 1) (current + 1) cs

/-- `CharsetTokenizer.__call__` (tokenizers.py:249-314): the supplied total
code-point mapping translates each character, an empty translation marking
a break. -/
def charsetTokenize (charMap : Char → List Char) (o : CallOpts)
    (value : List Char) : List Token :=
  let t := baseToken o
  if !o.tokenize then
    let t := { t with original_text := value, text := value, boost := 1 }
    let t := if o.positions then { t with pos := o.start_pos } else t
    let t := if o.chars then
        { t with start_char := o.start_char,
                 end_char := o.start_char + value.length }
      else t
    [t]
  else
    charsetRun charMap o value t [] o.start_pos o.start_char o.start_char value

/-- The match loop of `PathTokenizer.__call__` (tokenizers.py:351-360):
each match contributes the prefix `value[:match.end()]`.  The token record
is built as `Token(positions)` — `chars`, `remove_stopwords` and `mode`
keep their defaults. -/
def pathRun (o : CallOpts) (value : List Char) :
    Token → Nat → List (Nat × Nat) → List Token
  | _, _, [] => []
  | t, pos, (_, me) :: rest =>
    let t := { t with text := value.take me }
    let tp := if o.positions then ({ t with pos := pos }, pos + 1)
              else (t, pos)
    tp.1 :: pathRun o value tp.1 tp.2 rest

/-- `PathTokenizer.__call__` (tokenizers.py:351-360), with the compiled
expression's match spans on `value` supplied. -/
def pathTokenize (spans : List (Nat × Nat)) (o : CallOpts)
    (value : List Char) : List Token :=
  let t := { baseToken o with
             chars := false, remove_stopwords := true, mode := [] }
  pathRun o value t o.start_pos spans

/-- A tokenizer stage.  `regexT` and `pathT` carry both the pattern string
(compared by `__eq__`) and the compiled pattern's matching behaviour, a
function from the input to the ordered list of non-overlapping match
spans (the external pattern-engine collaborator). -/
inductive TokStage where
  | idT
  | regexT (pattern : List Char) (matcher : List Char → List (Nat × Nat))
      (gaps : Bool)
  | pathT (pattern : List Char) (matcher : List Char → List (Nat × Nat))

/-- A pipeline stage: one tokenizer or one filter. -/
inductive Stage where
  | tok (t : TokStage)
  | filt (f : FiltStage)

/-- `isinstance(item, Tokenizer)` (analyzers.py:79). -/
def stageIsTok : Stage → Bool
  | .tok _ => true
  | .filt _ => false

/-- Is the stage a filter (the shape a valid chain has after position 0)? -/
def stageIsFilter : Stage → Bool
  | .tok _ => false
  | .filt _ => true

/-- Does the stage hold a `MultiFilter`? -/
def stageIsMulti : Stage → Bool
  | .filt (.multi _) => true
  | _ => false

/-- `item.is_morph` for a stage (core.py:168, morph.py:59). -/
def stageIsMorph : Stage → Bool
  | .filt (.basic f) => basicIsMorph f
  | _ => false

/-- A composable value: a single stage or an already-built
`CompositeAnalyzer` with its flattened item list. -/
inductive CompVal where
  | stage (s : Stage)
  | pipe (items : List Stage)

/-- Any Python value appearing as the right operand of `|`: either a
`Composable` or something else entirely. -/
inductive PyVal where
  | comp (c : CompVal)
  | other

/-- The errors of composition: `TypeError` raised by `Composable.__or__`
(core.py:188-189) and `CompositionError` raised by
`CompositeAnalyzer.__init__` (analyzers.py:78-81). -/
inductive CompErr where
  | typeError
  | compositionError
deriving Repr, DecidableEq

/-- The flattening step of `CompositeAnalyzer.__init__`
(analyzers.py:69-73): a composite contributes its items, any other
component contributes itself. -/
def flattenItems : CompVal → List Stage
  | .stage s => [s]
  | .pipe items => items

/-- `CompositeAnalyzer.__init__` (analyzers.py:66-81): flatten the
components, then raise `CompositionError` if any item after position 0 is
a `Tokenizer`. -/
def mkComposite (components : List CompVal) : Except CompErr CompVal :=
  let items := components.flatMap flattenItems
  if (items.drop 1).any stageIsTok then .error .compositionError
  else .ok (.pipe items)

/-- `Composable.__or__` (core.py:185-190): `TypeError` unless the right
operand is a `Composable`, else `CompositeAnalyzer(self, other)`. -/
def composeOr (lhs : CompVal) (rhs : PyVal) : Except CompErr CompVal :=
  match rhs with
  | .other => .error .typeError
  | .comp c => mkComposite [lhs, c]

/-- `a | b` between two composable values. -/
def orOp (a b : CompVal) : Except CompErr CompVal :=
  composeOr a (.comp b)

/-- `(A | B) | C`; also the parse of `A | B | C`, since `|` is
left-associative in Python. -/
def composeLeft (a b c : Stage) : Except CompErr CompVal :=
  match orOp (.stage a) (.stage b) with
  | .error e => .error e
  | .ok p => orOp p (.stage c)

/-- `A | (B | C)`. -/
def composeRight (a b c : Stage) : Except CompErr CompVal :=
  match orOp (.stage b) (.stage c) with
  | .error e => .error e
  | .ok q => orOp (.stage a) q

/-- `gen = item(gen)` for the stages after position 0 in
`CompositeAnalyzer.__call__` (analyzers.py:92-94), skipping morphological
stages when `no_morph` is set.  Applying a tokenizer mid-chain is not a
token-stream transformation. -/
def runStages (noMorph : Bool) : List Stage →
    List Token → Except RunErr (List Token)
  | [], s => .ok s
  | st :: more, s =>
    if noMorph && stageIsMorph st then runStages noMorph more s
    else
      match st with
      | .tok _ => .error .invalid
      | .filt f =>
        match applyFilt f s with
        | .error e => .error e
        | .ok s2 => runStages noMorph more s2

/-- `items[0](value, **kwargs)` (analyzers.py:90): invoking a tokenizer
stage on the raw input. -/
def applyTokStage : TokStage → CallOpts → List Char → List Token
  | .idT, o, v => idTokenize o v
  | .regexT _ m gaps, o, v => regexTokenize (m v) gaps o v
  | .pathT _ m, o, v => pathTokenize (m v) o v

/-- `CompositeAnalyzer.__call__` (analyzers.py:87-95): the first item
tokenizes the raw value, each further item transforms the stream. -/
def pipelineRun (items : List Stage) (noMorph : Bool) (o : CallOpts)
    (value : List Char) : Except RunErr (List Token) :=
  match items with
  | .tok t :: rest => runStages noMorph rest (applyTokStage t o value)
  | _ => .error .invalid

/-- `StopFilter.__eq__` (filters.py:204-209): compares the stop set,
`minsize` and `renumber` — `maxsize` is not compared. -/
def stopEq (a b : StopCfg) : Bool :=
  a.stops == b.stops && a.min == b.min && a.renumber == b.renumber

/-- `__eq__` of the non-dispatching filters: `Filter.__eq__`
(filters.py:57-60) compares class and `__dict__`, except that `StopFilter`
overrides it with `stopEq`. -/
def basicEq : BasicFilter → BasicFilter → Bool
  | .pass, .pass => true
  | .lowercase, .lowercase => true
  | .strip, .strip => true
  | .stop a, .stop b => stopEq a b
  | .charsetF m1, .charsetF m2 => m1 == m2
  | .stem t1 i1, .stem t2 i2 => t1 == t2 && i1 == i2
  | _, _ => false

/-- `MultiFilter.__eq__` (filters.py:116-119): dict equality of the mode
mapping — same key set and equal sub-filters key by key. -/
def multiEq (fs gs : List (List Char × BasicFilter)) : Bool :=
  fs.length == gs.length &&
    fs.all (fun p =>
      match gs.find? (fun q => q.1 == p.1) with
      | some q => basicEq p.2 q.2
      | none => false)

/-- `__eq__` of a filter stage. -/
def filtEq : FiltStage → FiltStage → Bool
  | .basic a, .basic b => basicEq a b
  | .multi fs, .multi gs => multiEq fs gs
  | _, _ => false

/-- `__eq__` of a tokenizer stage: `Tokenizer.__eq__` (tokenizers.py:52-53)
compares classes only — `IDTokenizer` and `PathTokenizer` inherit it —
while `RegexTokenizer.__eq__` (tokenizers.py:122-126) compares only the
pattern strings (the `gaps` flag is not compared). -/
def tokEq : TokStage → TokStage → Bool
  | .idT, .idT => true
  | .regexT p1 _ _, .regexT p2 _ _ => p1 == p2
  | .pathT _ _, .pathT _ _ => true
  | _, _ => false

/-- `__eq__` of one stage, dispatching on its class. -/
def stageEq : Stage → Stage → Bool
  | .tok a, .tok b => tokEq a b
  | .filt a, .filt b => filtEq a b
  | _, _ => false

/-- `CompositeAnalyzer.__eq__` (analyzers.py:103-106): same class and
elementwise-equal `items` lists. -/
def compositeEq (p q : List Stage) : Bool :=
  p.length == q.length && (p.zip q).all fun ab => stageEq ab.1 ab.2

/-- `\w` for the inputs considered here: alphanumeric or underscore. -/
def isWordChar (c : Char) : Bool :=
  c.isAlphanum || c == '_'

/-- Matcher for patterns of the shape `[x]+` — maximal runs of characters
satisfying `p` (used by `PathTokenizer`'s default `[^/]+` and the
space-separated `[^ \t\r\n]+`).  Arguments: remaining input, current
index, and the start of the open run, if any. -/
def runsGo (p : Char → Bool) : List Char → Nat → Option Nat →
    List (Nat × Nat)
  | [], _, none => []
  | [], i, some s => [(s, i)]
  | c :: cs, i, none =>
    if p c then runsGo p cs (i + 1) (some i)
    else runsGo p cs (i + 1) none
  | c :: cs, i, some s =>
    if p c then runsGo p cs (i + 1) (some s)
    else (s, i) :: runsGo p cs (i + 1) none

/-- Non-overlapping left-to-right match spans of `[x]+` over the input. -/
def runsMatcher (p : Char → Bool) (value : List Char) : List (Nat × Nat) :=
  runsGo p value 0 none

/-- Matcher for the default pattern `\w+(\.?\w+)*` (tokenizers.py:32):
maximal spans of word characters with single embedded dots, never
starting, ending, or doubling a dot.  The state of an open match is its
start index and whether a tentative dot is pending. -/
def dmGo : List Char → Nat → Option (Nat × Bool) → List (Nat × Nat)
  | [], _, none => []
  | [], i, some sd => [(sd.1, i - (if sd.2 then 1 else 0))]
  | c :: cs, i, none =>
    if isWordChar c then dmGo cs (i + 1) (some (i, false))
    else dmGo cs (i + 1) none
  | c :: cs, i, some sd =>
    if isWordChar c then dmGo cs (i + 1) (some (sd.1, false))
    else if c == '.' && !sd.2 then dmGo cs (i + 1) (some (sd.1, true))
    else (sd.1, i - (if sd.2 then 1 else 0)) :: dmGo cs (i + 1) none

/-- Match spans of the compiled `default_pattern` on the input. -/
def defaultMatcher (value : List Char) : List (Nat × Nat) :=
  dmGo value 0 none

/-- The pattern string of `default_pattern` (tokenizers.py:32). -/
def defaultPatternStr : List Char := "\\w+(\\.?\\w+)*".data

/-- The stage list built by `SimpleAnalyzer()` (analyzers.py:138-150):
`RegexTokenizer(expression=default_pattern, gaps=False) |
LowercaseFilter()`. -/
def simpleAnalyzerItems : List Stage :=
  [.tok (.regexT defaultPatternStr defaultMatcher false),
   .filt (.basic .lowercase)]

/-- The spec's stop judgement, in the spec's own words: a token is stopped
iff its text length is below the minimum, above the maximum (when one is
set), or its text is in the stop set. -/
def stopJudge (stops : List (List Char)) (mn : Nat) (mx : Option Nat)
    (t : Token) : Bool :=
  decide (t.text.length < mn) ||
    (match mx with
     | some m => decide (m < t.text.length)
     | none => false) ||
    stops.contains t.text

/-- The observable text sequence of a pipeline result: `some` texts on
success, `none` on an escaped exception. -/
def tokenTexts (r : Except RunErr (List Token)) : Option (List (List Char)) :=
  match r with
  | .ok ts => some (ts.map Token.text)
  | .error _ => none

/-- Claim C5 (code_bug): in the `gaps=False`, `chars=True` branch,
`RegexTokenizer.__call__` assigns `start_char + match.end()` to
`t.start_char` (overwriting `start_char + match.start()`) and never sets
`t.end_char` (tokenizers.py:167-168).  On the docstring's own example —
`"aaa bbb"` with `start_char=2`, which it says must produce offsets
`(2,5),(6,9)` — the emitted offsets are `start_char=5,end_char=0` and
`start_char=9,end_char=0`. -/
theorem c5_char_offset_bug :
    (regexTokenize (defaultMatcher "aaa bbb".data) false
        { defaultOpts with chars := true, start_char := 2 }
        "aaa bbb".data).map (fun t => (t.text, t.start_char, t.end_char)) =
      [("aaa".data, 5, 0), ("bbb".data, 9, 0)] := by decide

/-- Claim C7 (code_bug): `CharsetTokenizer.__call__` emits the trailing
run as `value[start:current]` — the original characters — instead of the
accumulated translated text (tokenizers.py:305 vs 288).  With a total
case-folding map (space a break) on `"AB CD"`, the mid-stream token is the
translated `"ab"` but the trailing token is the untranslated `"CD"`,
contradicting the class's own doctest (`'Straße ABC'` → `['strase',
'abc']`). -/
theorem c7_trailing_token_bug :
    (charsetTokenize (fun c => if c == ' ' then [] else [c.toLower])
        defaultOpts "AB CD".data).map Token.text =
      ["ab".data, "CD".data] := by decide

/-- Claim C9 (counterexample): `SimpleAnalyzer()` on
`"Hello there, this is a TEST"` does not yield the spec's list
`["hello","there,","this","is","a","test"]` — the default pattern
`\w+(\.?\w+)*` does not match the comma. -/
theorem c9_simple_analyzer_counterexample :
    tokenTexts (pipelineRun simpleAnalyzerItems false defaultOpts
        "Hello there, this is a TEST".data) ≠
      some ["hello".data, "there,".data, "this".data, "is".data,
            "a".data, "test".data] := by decide

/-- Claim C9 (amended): `SimpleAnalyzer()` on
`"Hello there, this is a TEST"` yields exactly
`["hello","there","this","is","a","test"]`, in that order, matching the
factory's own docstring (analyzers.py:141-143). -/
theorem c9_simple_analyzer_amended :
    tokenTexts (pipelineRun simpleAnalyzerItems false defaultOpts
        "Hello there, this is a TEST".data) =
      some ["hello".data, "there".data, "this".data, "is".data,
            "a".data, "test".data] := by decide

/-- Claim C6 (counterexample): `IDTokenizer` on the empty input does not
yield an empty token sequence — it yields exactly one token (whose text is
empty), since its `__call__` yields unconditionally
(tokenizers.py:82-97). -/
theorem c6_idtokenizer_counterexample :
    idTokenize defaultOpts [] ≠ [] := by decide

/-- Claim C1 (counterexample): composing with a right-hand operand that is
not a recognized stage/pipeline type raises `TypeError`
(core.py:188-189), not `CompositionError`. -/
theorem c1_typeerror_counterexample :
    composeOr (.stage (.tok .idT)) .other = .error .typeError
  ∧ CompErr.typeError ≠ CompErr.compositionError := ⟨rfl, by decide⟩

/-- Claim C8 (counterexample): two pipelines that differ only in the
`StopFilter` `maxsize` (5 vs 10) and the `RegexTokenizer` `gaps` flag
compare equal, because `StopFilter.__eq__` does not compare `max`
(filters.py:204-209) and `RegexTokenizer.__eq__` compares only the
pattern (tokenizers.py:122-126). -/
theorem c8_equality_counterexample :
    ((⟨[['i', 's']], 2, some 5, false⟩ : StopCfg) ≠
      ⟨[['i', 's']], 2, some 10, false⟩)
  ∧ compositeEq
      [.tok (.regexT defaultPatternStr defaultMatcher false),
       .filt (.basic (.stop ⟨[['i', 's']], 2, some 5, false⟩))]
      [.tok (.regexT defaultPatternStr defaultMatcher true),
       .filt (.basic (.stop ⟨[['i', 's']], 2, some 10, false⟩))] =
      true := ⟨by decide, by decide⟩

/-- Claim C3: on a non-empty stream whose tokens all carry the same mode,
`MultiFilter` consumes the first token, selects the sub-filter mapped to
that mode (pass-through when unrecognized), and applies it to the full
stream with the first token prepended back — so the output is the selected
sub-filter applied to the entire original stream. -/
theorem c3_multifilter_dispatch (fs : List (List Char × BasicFilter))
    (m : List Char) (t : Token) (rest : List Token)
    (h : ∀ u ∈ t :: rest, u.mode = m) :
    applyFilt (.multi fs) (t :: rest) =
      .ok (applyBasic (lookupFilter fs m) (t :: rest)) := by
  have ht : t.mode = m := h t (List.mem_cons_self t rest)
  simp [applyFilt, multiApply, pyNext, ht]

/-- Witness for `c3_multifilter_dispatch` at a concrete stream: a mapping
sending mode `"a"` to `LowercaseFilter` and mode `"b"` to `PassFilter`,
applied to a single-token stream of mode `"a"`. -/
theorem c3_multifilter_dispatch_witness :
    applyFilt (.multi [(['a'], .lowercase), (['b'], .pass)])
        [{ positions := false, chars := false, remove_stopwords := true,
           mode := ['a'], boost := 1, stopped := false, text := "HI".data,
           original_text := [], pos := 0, start_char := 0, end_char := 0 }] =
      .ok (applyBasic
        (lookupFilter [(['a'], .lowercase), (['b'], .pass)] ['a'])
        [{ positions := false, chars := false, remove_stopwords := true,
           mode := ['a'], boost := 1, stopped := false, text := "HI".data,
           original_text := [], pos := 0, start_char := 0, end_char := 0 }]) :=
  c3_multifilter_dispatch _ _ _ _ (by decide)

lemma keep_eq_not_stopJudge (stops : List (List Char)) (mn : Nat)
    (mx : Option Nat) (t : Token) :
    (mn ≤ t.text.length
      && (match mx with
          | none => true
          | some m => t.text.length ≤ m)
      && !(stops.contains t.text)) = !stopJudge stops mn mx t := by
  simp only [stopJudge, Bool.not_or]
  rcases Nat.lt_or_ge t.text.length mn with h1 | h1
  · simp [Nat.not_le.mpr h1, h1]
  · have h1' : ¬ t.text.length < mn := Nat.not_lt.mpr h1
    cases mx with
    | none => simp [h1, h1', Bool.and_assoc]
    | some m =>
      rcases Nat.lt_or_ge m t.text.length with h2 | h2
      · simp [h1, h1', h2, Nat.not_le.mpr h2]
      · simp [h1, h1', h2, Nat.not_lt.mpr h2, Bool.and_assoc]

/-- Claim C4: with `renumber=False`, `StopFilter(stop_list, minsize,
maxsize)` judges a token stopped iff its text length is below `minsize`,
above `maxsize` (when set), or its text is in the stop set
(`stopJudge`); every non-stopped token is yielded with `stopped=False`,
and every stopped token is dropped when its `remove_stopwords` flag is
true and yielded with `stopped=True` when it is false. -/
theorem c4_stopfilter_characterization (stops : List (List Char))
    (mn : Nat) (mx : Option Nat) (stream : List Token) :
    stopApply ⟨stops, mn, mx, false⟩ stream =
      stream.filterMap (fun t =>
        if stopJudge stops mn mx t then
          (if t.remove_stopwords then none
           else some { t with stopped := true })
        else some { t with stopped := false }) := by
  induction stream with
  | nil => rfl
  | cons t rest ih =>
    simp only [stopApply] at ih ⊢
    rw [stopRun, keep_eq_not_stopJudge]
    by_cases hj : stopJudge stops mn mx t = true
    · by_cases hr : t.remove_stopwords = true <;>
        simp [hj, hr, List.filterMap_cons, ih]
    · simp [hj, List.filterMap_cons, ih]

/-- Claim C1 (amended): for every left operand and right-hand value, `|`
fails with `TypeError` exactly when the right operand is not a recognized
stage/pipeline type, fails with `CompositionError` exactly when the
flattened stage ordering would place a Tokenizer anywhere but position 0,
and succeeds in all other cases. -/
theorem c1_compose_characterization (l : CompVal) (r : PyVal) :
    (composeOr l r = .error .typeError ↔ r = .other)
  ∧ (composeOr l r = .error .compositionError ↔
      ∃ c, r = .comp c ∧
        ((flattenItems l ++ flattenItems c).drop 1).any stageIsTok = true)
  ∧ ((∃ p, composeOr l r = .ok p) ↔
      ∃ c, r = .comp c ∧
        ((flattenItems l ++ flattenItems c).drop 1).any stageIsTok = false) := by
  cases r with
  | other =>
    refine ⟨by simp [composeOr], ⟨by simp [composeOr], ?_⟩⟩
    constructor
    · rintro ⟨p, hp⟩
      simp [composeOr] at hp
    · rintro ⟨c, hc, -⟩
      cases hc
  | comp c =>
    have hitems : ([l, c] : List CompVal).flatMap flattenItems =
        flattenItems l ++ flattenItems c := by simp
    by_cases h :
        ((flattenItems l ++ flattenItems c).drop 1).any stageIsTok = true
    · have hres : composeOr l (.comp c) = .error .compositionError := by
        simp only [composeOr, mkComposite, hitems]
        rw [if_pos h]
      refine ⟨?_, ?_, ?_⟩
      · rw [hres]
        simp
      · rw [hres]
        exact ⟨fun _ => ⟨c, rfl, h⟩, fun _ => rfl⟩
      · rw [hres]
        constructor
        · rintro ⟨p, hp⟩
          cases hp
        · rintro ⟨c2, hc2, hfalse⟩
          injection hc2 with e
          subst e
          rw [h] at hfalse
          cases hfalse
    · have h2 :
          ((flattenItems l ++ flattenItems c).drop 1).any stageIsTok =
            false := by
        cases hx :
            ((flattenItems l ++ flattenItems c).drop 1).any stageIsTok with
        | true => exact absurd hx h
        | false => rfl
      have hres : composeOr l (.comp c) =
          .ok (.pipe (flattenItems l ++ flattenItems c)) := by
        simp only [composeOr, mkComposite, hitems]
        rw [if_neg h]
      refine ⟨?_, ?_, ?_⟩
      · rw [hres]
        simp
      · rw [hres]
        constructor
        · rintro hbad
          cases hbad
        · rintro ⟨c2, hc2, htrue⟩
          injection hc2 with e
          subst e
          rw [h2] at htrue
          cases htrue
      · rw [hres]
        exact ⟨fun _ => ⟨c, rfl, h2⟩,
          fun _ => ⟨.pipe (flattenItems l ++ flattenItems c), rfl⟩⟩

/-- Claim C2: composition is associative and flattening — whenever either
`(A | B) | C` or `A | (B | C)` produces a pipeline (and `A | B | C`
parses as the former), both produce the pipeline whose stage list is the
flat sequence `[A, B, C]`, with no nesting. -/
theorem c2_assoc_flatten (a b c : Stage) (p : CompVal)
    (h : composeLeft a b c = .ok p ∨ composeRight a b c = .ok p) :
    composeLeft a b c = .ok (.pipe [a, b, c])
  ∧ composeRight a b c = .ok (.pipe [a, b, c])
  ∧ p = .pipe [a, b, c] := by
  by_cases hb : stageIsTok b = true <;> by_cases hc : stageIsTok c = true
  all_goals
    simp [composeLeft, composeRight, orOp, composeOr, mkComposite,
      flattenItems, hb, hc] at h ⊢
  all_goals simp [h]

/-- Witness for `c2_assoc_flatten`: an ID tokenizer composed with two
concrete filters, associated both ways. -/
theorem c2_assoc_flatten_witness :
    composeLeft (.tok .idT) (.filt (.basic .pass))
        (.filt (.basic .lowercase)) =
      .ok (.pipe [.tok .idT, .filt (.basic .pass),
        .filt (.basic .lowercase)])
  ∧ composeRight (.tok .idT) (.filt (.basic .pass))
        (.filt (.basic .lowercase)) =
      .ok (.pipe [.tok .idT, .filt (.basic .pass),
        .filt (.basic .lowercase)])
  ∧ (CompVal.pipe [.tok .idT, .filt (.basic .pass),
        .filt (.basic .lowercase)]) =
      .pipe [.tok .idT, .filt (.basic .pass), .filt (.basic .lowercase)] :=
  c2_assoc_flatten _ _ _ _ (Or.inl rfl)

/-- Claim C6 (amended): with `tokenize=True` (the default), the regex,
character-map and path tokenizers yield an empty token sequence on empty
input; the ID tokenizer instead yields exactly one token whose text is
empty, because its `__call__` yields unconditionally. -/
theorem c6_empty_input_amended (o : CallOpts) (h : o.tokenize = true)
    (gaps : Bool) (cm : Char → List Char) (p : Char → Bool) :
    regexTokenize (defaultMatcher []) gaps o [] = []
  ∧ charsetTokenize cm o [] = []
  ∧ pathTokenize (runsMatcher p []) o [] = []
  ∧ (idTokenize o []).map Token.text = [[]] := by
  refine ⟨?_, ?_, ?_, ?_⟩
  · cases gaps <;>
      simp [regexTokenize, h, regexMatchRun, regexGapRun, defaultMatcher,
        dmGo]
  · simp [charsetTokenize, h, charsetRun]
  · simp [pathTokenize, runsMatcher, runsGo, pathRun]
  · simp only [idTokenize]
    split <;> split <;> split <;> rfl

/-- Witness for `c6_empty_input_amended` at the default options. -/
theorem c6_empty_input_amended_witness :
    regexTokenize (defaultMatcher []) false defaultOpts [] = []
  ∧ charsetTokenize (fun _ => []) defaultOpts [] = []
  ∧ pathTokenize (runsMatcher (fun _ => false) []) defaultOpts [] = []
  ∧ (idTokenize defaultOpts []).map Token.text = [[]] :=
  c6_empty_input_amended defaultOpts rfl false (fun _ => []) (fun _ => false)

/-- Claim C8 (amended): pipeline equality is structural over the stage
sequence, but each stage's own `__eq__` decides which configuration is
compared: `StopFilter` equality ignores `maxsize` and `RegexTokenizer`
equality compares only the pattern (ignoring `gaps`), so pipelines
differing only in those fields compare equal, while pipelines differing in
a compared field such as `minsize` compare unequal. -/
theorem c8_structural_eq_amended (pat : List Char)
    (m1 m2 : List Char → List (Nat × Nat)) (g1 g2 : Bool)
    (stops : List (List Char)) (mn mn' : Nat) (mx1 mx2 : Option Nat)
    (rn : Bool) (hne : mn ≠ mn') :
    compositeEq
      [.tok (.regexT pat m1 g1),
       .filt (.basic (.stop ⟨stops, mn, mx1, rn⟩))]
      [.tok (.regexT pat m2 g2),
       .filt (.basic (.stop ⟨stops, mn, mx2, rn⟩))] = true
  ∧ compositeEq
      [.tok (.regexT pat m1 g1),
       .filt (.basic (.stop ⟨stops, mn, mx1, rn⟩))]
      [.tok (.regexT pat m2 g2),
       .filt (.basic (.stop ⟨stops, mn', mx2, rn⟩))] = false := by
  constructor
  · simp [compositeEq, stageEq, tokEq, filtEq, basicEq, stopEq]
  · simp [compositeEq, stageEq, tokEq, filtEq, basicEq, stopEq, hne]

/-- Witness for `c8_structural_eq_amended` at concrete configurations. -/
theorem c8_structural_eq_amended_witness :
    compositeEq
      [.tok (.regexT [] (fun _ => []) false),
       .filt (.basic (.stop ⟨[], 2, some 5, false⟩))]
      [.tok (.regexT [] (fun _ => []) true),
       .filt (.basic (.stop ⟨[], 2, none, false⟩))] = true
  ∧ compositeEq
      [.tok (.regexT [] (fun _ => []) false),
       .filt (.basic (.stop ⟨[], 2, some 5, false⟩))]
      [.tok (.regexT [] (fun _ => []) true),
       .filt (.basic (.stop ⟨[], 3, none, false⟩))] = false :=
  c8_structural_eq_amended [] (fun _ => []) (fun _ => []) false true
    [] 2 3 (some 5) none false (by decide)

lemma applyBasic_nil (f : BasicFilter) : applyBasic f [] = [] := by
  cases f <;> rfl

lemma runStages_nil_of_multi (nm : Bool) (rest : List Stage)
    (hv : rest.all stageIsFilter = true)
    (hm : rest.any stageIsMulti = true) :
    runStages nm rest [] = .error .stopIteration := by
  induction rest with
  | nil => cases hm
  | cons st more ih =>
    simp only [List.all_cons, Bool.and_eq_true] at hv
    simp only [List.any_cons, Bool.or_eq_true] at hm
    cases st with
    | tok t => cases hv.1
    | filt f =>
      cases f with
      | multi fs =>
        simp [runStages, stageIsMorph, applyFilt, multiApply, pyNext]
      | basic bf =>
        have hm2 : more.any stageIsMulti = true := by
          rcases hm with h1 | h1
          · rw [show stageIsMulti (.filt (.basic bf)) = false from rfl] at h1
            cases h1
          · exact h1
        by_cases hskip : (nm && stageIsMorph (.filt (.basic bf))) = true
        · rw [runStages, if_pos hskip]
          exact ih hv.2 hm2
        · rw [runStages, if_neg hskip]
          simp only [applyFilt, applyBasic_nil]
          exact ih hv.2 hm2

/-- Claim C10: running a valid pipeline that contains a `MultiFilter`
stage on an input the tokenizer turns into zero tokens raises
`StopIteration` (the `MultiFilter` unconditionally pulls the first token),
rather than returning an empty token sequence — with or without
`no_morph`. -/
theorem c10_multifilter_empty_stream (t0 : TokStage) (rest : List Stage)
    (nm : Bool) (o : CallOpts) (v : List Char)
    (hv : rest.all stageIsFilter = true)
    (hm : rest.any stageIsMulti = true)
    (he : applyTokStage t0 o v = []) :
    pipelineRun (.tok t0 :: rest) nm o v = .error .stopIteration := by
  simp only [pipelineRun, he]
  exact runStages_nil_of_multi nm rest hv hm

/-- Witness for `c10_multifilter_empty_stream`: the default regex
tokenizer followed by a `MultiFilter`, called on the empty string. -/
theorem c10_multifilter_empty_stream_witness :
    pipelineRun
      [.tok (.regexT defaultPatternStr defaultMatcher false),
       .filt (.multi [])] false defaultOpts [] = .error .stopIteration :=
  c10_multifilter_empty_stream _ _ _ _ _ (by decide) (by decide) (by decide)
